import Mathlib

/-!
Verification of the TDS dashboard storage and ingestion layer.

The embedding models `utils/storage.py`, the validation block of
`ingest/http_server.py` (`receive_tds`) and the classification function of
`dashboard/app.py` (`get_water_quality_status`).

Modelling conventions:
* The SQLite table `readings` is a `DB`: a list of `Reading` rows in insertion
  order together with the next AUTOINCREMENT id.  Reachable stores have
  strictly increasing ids along the list; theorems that need it take the
  hypothesis that the ids are duplicate-free.
* Timestamps are rationals measured in minutes (the source stores ISO-8601
  strings whose lexicographic SQL ordering agrees with chronological order for
  the uniform format the code writes); `timedelta(minutes=m)` is `m`,
  `timedelta(days=d)` is `d * 1440`.
* `tds`, `voltage` are rationals (Python floats at sensor scale).
* SQL `ORDER BY timestamp DESC` is modelled as `mergeSort` with the key
  (timestamp descending, id ascending): SQLite serves this query from the
  index `idx_timestamp (timestamp DESC)`, whose entries with equal key are
  ordered by ascending rowid.
* `pandas.DataFrame.sort_values('timestamp')` uses the default
  kind='quicksort', which pandas documents as not stable: the program
  guarantees only that the re-sorted frame is some timestamp-ascending
  permutation of its input.  That contract is `sortValuesTsOutcome`, and
  `lastNReadingsOutcome` collects every admissible result of the range
  query; order-of-equal-timestamps properties are settled against it.
  The executable function `last_n_readings` fixes one admissible outcome
  (the stable `mergeSort` one) so that order-insensitive properties
  (membership, multiset of rows, lengths) can be computed; those are the
  same for every admissible outcome.
* Python truthiness of the optional parameters (`if minutes:`, `if device_id:`,
  `if days:`, `payload.get(...) or ...`) is modelled explicitly: `None`, `0`
  and `""` are falsy.
-/

/-- One row of the `readings` table (`utils/storage.py`, `init_database`). -/
structure Reading where
  id : Nat
  device_id : String
  device_ip : Option String
  tds : ℚ
  voltage : Option ℚ
  timestamp : ℚ
  created_at : ℚ
deriving DecidableEq, Repr

/-- The SQLite store: rows in insertion order plus the next AUTOINCREMENT id. -/
structure DB where
  next_id : Nat
  rows : List Reading
deriving DecidableEq, Repr

/-- The empty store right after `init_database` (AUTOINCREMENT starts at 1). -/
def DB.empty : DB := ⟨1, []⟩

/-- Python truthiness of an optional number: `None` and `0` are falsy. -/
def optNumTruthy : Option ℚ → Bool
  | none => false
  | some m => m != 0

/-- Python truthiness of an optional string: `None` and `""` are falsy. -/
def optStrTruthy : Option String → Bool
  | none => false
  | some s => s != ""

/-- `append_reading` (`utils/storage.py` lines 49-77): no validation, assigns
`timestamp = now` when absent, `created_at = now`, inserts with a fresh id. -/
def append_reading (db : DB) (now : ℚ) (device_id : String) (tds : ℚ)
    (voltage : Option ℚ := none) (timestamp : Option ℚ := none)
    (device_ip : Option String := none) : DB :=
  { next_id := db.next_id + 1
    rows := db.rows ++
      [{ id := db.next_id
         device_id := device_id
         device_ip := device_ip
         tds := tds
         voltage := voltage
         timestamp := timestamp.getD now
         created_at := now }] }

/-- The WHERE clause built by `last_n_readings`: `timestamp >= cutoff` when
`minutes` is truthy, `device_id = ?` when `device_id` is truthy. -/
def matchesQuery (now : ℚ) (minutes : Option ℚ) (device_id : Option String)
    (r : Reading) : Bool :=
  (if optNumTruthy minutes then decide (now - (minutes.getD 0) ≤ r.timestamp)
   else true) &&
  (if optStrTruthy device_id then r.device_id == device_id.getD ""
   else true)

/-- SQL `ORDER BY timestamp DESC` scan order: timestamp descending, equal
timestamps in ascending rowid order (the order of the `idx_timestamp` index). -/
def sqlDescLe (a b : Reading) : Bool :=
  decide (b.timestamp < a.timestamp) ||
    (decide (a.timestamp = b.timestamp) && decide (a.id ≤ b.id))

/-- The pandas re-sort key: ascending timestamp only. -/
def tsAscLe (a b : Reading) : Bool :=
  decide (a.timestamp ≤ b.timestamp)

/-- `last_n_readings` (`utils/storage.py` lines 79-122): filter by the
optional window and device, order by timestamp descending, apply `LIMIT`,
then (when non-empty) re-sort ascending by timestamp for charting.
The final `df.sort_values('timestamp')` is unstable (default quicksort);
this executable function fixes one admissible outcome of it.  Everything the
re-sort actually guarantees is captured by `lastNReadingsOutcome` below, and
`last_n_readings_is_outcome` shows this function is one of its outcomes. -/
def last_n_readings (db : DB) (now : ℚ) (minutes : Option ℚ := none)
    (limit : Nat := 1000) (device_id : Option String := none) : List Reading :=
  let filtered := db.rows.filter (matchesQuery now minutes device_id)
  let limited := (filtered.mergeSort sqlDescLe).take limit
  if limited.isEmpty then limited else limited.mergeSort tsAscLe

/-- The contract of `pandas.DataFrame.sort_values('timestamp')` with the
default kind='quicksort': the output is some permutation of the input that is
ascending in the sort key.  The sort is documented as not stable, so nothing
is guaranteed about the relative order of equal timestamps. -/
def sortValuesTsOutcome (input output : List Reading) : Prop :=
  input.Perm output ∧
    output.Pairwise (fun a b => a.timestamp ≤ b.timestamp)

/-- Every admissible result of `last_n_readings`: the SQL part (filter,
ORDER BY timestamp DESC, LIMIT) is deterministic, the final pandas re-sort is
any `sortValuesTsOutcome` (an empty frame skips the re-sort). -/
def lastNReadingsOutcome (db : DB) (now : ℚ) (minutes : Option ℚ)
    (limit : Nat) (device_id : Option String) (out : List Reading) : Prop :=
  if (((db.rows.filter (matchesQuery now minutes device_id)).mergeSort
        sqlDescLe).take limit).isEmpty then
    out = ((db.rows.filter (matchesQuery now minutes device_id)).mergeSort
        sqlDescLe).take limit
  else
    sortValuesTsOutcome (((db.rows.filter (matchesQuery now minutes
      device_id)).mergeSort sqlDescLe).take limit) out

/-- One result row of `get_latest_by_device`: the six selected columns plus
the `MAX(timestamp) AS last_seen` aggregate (no `id` in the SELECT list). -/
structure LatestRow where
  device_id : String
  device_ip : Option String
  tds : ℚ
  voltage : Option ℚ
  timestamp : ℚ
  created_at : ℚ
  last_seen : ℚ
deriving DecidableEq, Repr

/-- SQLite's `MAX(timestamp)` accumulator row for a group scanned in
insertion (rowid-ascending) order: `minmaxStep` replaces the accumulator only
when a scanned value is strictly greater, so on timestamp ties the
first-scanned (lowest-id) row survives and supplies the bare columns. -/
def bestOf (r : Reading) (rs : List Reading) : Reading :=
  rs.foldl (fun b x => if b.timestamp < x.timestamp then x else b) r

/-- SQLite's `MAX(timestamp)` aggregate value over one scanned group. -/
def maxTsOf (r : Reading) (rs : List Reading) : ℚ :=
  rs.foldl (fun acc x => max acc x.timestamp) r.timestamp

/-- Aggregation of one `GROUP BY device_id` group of the
`get_latest_by_device` query: the six bare columns come from the
`MAX(timestamp)` accumulator row, `last_seen` is the maximum timestamp. -/
def groupAgg : List Reading → Option LatestRow
  | [] => none
  | r :: rs =>
    some { device_id := (bestOf r rs).device_id
           device_ip := (bestOf r rs).device_ip
           tds := (bestOf r rs).tds
           voltage := (bestOf r rs).voltage
           timestamp := (bestOf r rs).timestamp
           created_at := (bestOf r rs).created_at
           last_seen := maxTsOf r rs }

/-- `ORDER BY last_seen DESC`. -/
def lastSeenDescLe (a b : LatestRow) : Bool :=
  decide (b.last_seen ≤ a.last_seen)

/-- `get_latest_by_device` (`utils/storage.py` lines 124-149): one aggregated
row per distinct `device_id`, ordered by `last_seen` descending. -/
def get_latest_by_device (db : DB) : List LatestRow :=
  (((db.rows.map (fun r => r.device_id)).dedup).filterMap
      (fun d => groupAgg (db.rows.filter (fun r => r.device_id == d)))).mergeSort
    lastSeenDescLe

/-- `clear_old_readings` (`utils/storage.py` lines 189-204):
`DELETE FROM readings WHERE timestamp < now - days` (days = 1440 minutes each);
returns the new store and the DELETE rowcount. -/
def clear_old_readings (db : DB) (now : ℚ) (days : ℚ := 30) : DB × Nat :=
  let cutoff := now - days * 1440
  ({ db with rows := db.rows.filter (fun r => !decide (r.timestamp < cutoff)) },
   (db.rows.filter (fun r => decide (r.timestamp < cutoff))).length)

/-- The record returned by `get_stats`. -/
structure Stats where
  total_readings : Nat
  total_devices : Nat
  earliest : Option ℚ
  latest : Option ℚ
deriving DecidableEq, Repr

/-- `get_stats` (`utils/storage.py` lines 206-228): `COUNT(*)`,
`COUNT(DISTINCT device_id)`, `MIN(timestamp)`, `MAX(timestamp)`
(the latter two are NULL on an empty table). -/
def get_stats (db : DB) : Stats :=
  { total_readings := db.rows.length
    total_devices := ((db.rows.map (fun r => r.device_id)).dedup).length
    earliest := (db.rows.map (fun r => r.timestamp)).min?
    latest := (db.rows.map (fun r => r.timestamp)).max? }

/-- `export_csv` (`utils/storage.py` lines 169-187): `days` is converted to
minutes when truthy, the rows come from `last_n_readings` with limit 100000;
a non-empty frame is written to the file (modelled as returning its rows),
an empty one produces no file (`None`). -/
def export_csv (db : DB) (now : ℚ) (device_id : Option String := none)
    (days : Option ℚ := none) : Option (List Reading) :=
  let minutes : Option ℚ := if optNumTruthy days then some (days.getD 0 * 1440) else none
  let df := last_n_readings db now minutes 100000 device_id
  if df.isEmpty then none else some df

/-- The configured classification thresholds (`config.yaml` / `load_config`). -/
structure Thresholds where
  good : ℚ
  moderate : ℚ
deriving DecidableEq, Repr

/-- `get_water_quality_status` (`dashboard/app.py` lines 42-49). -/
def get_water_quality_status (tds : ℚ) (thresholds : Thresholds) :
    String × String × String :=
  if tds < thresholds.good then ("Good", "🟢", "#28a745")
  else if tds < thresholds.moderate then ("Moderate", "🟡", "#ffc107")
  else ("Poor", "🔴", "#dc3545")

/-- The `tds` field of an ingestion payload as seen by `float(tds)`:
a JSON number, a string that parses as a Python float literal, a string that
does not (`float` raises `ValueError`), a non-scalar value (`float` raises
`TypeError`), or absent (`payload.get` returns `None`). -/
inductive TdsField where
  | absent : TdsField
  | num : ℚ → TdsField
  | numStr : ℚ → TdsField
  | badStr : String → TdsField
  | nonScalar : TdsField
deriving DecidableEq, Repr

/-- The result of Python `float(tds)` on a present field: `none` means the
coercion raises. -/
def floatOf : TdsField → Option ℚ
  | .absent => none
  | .num q => some q
  | .numStr q => some q
  | .badStr _ => none
  | .nonScalar => none

/-- Outcome of one `POST /api/tds` request. -/
inductive IngestResult where
  | ok : String → ℚ → IngestResult
  | clientError : Nat → String → IngestResult
  | serverError : String → IngestResult
deriving DecidableEq, Repr

/-- Whether the request was accepted. -/
def IngestResult.accepted : IngestResult → Bool
  | .ok _ _ => true
  | _ => false

/-- `receive_tds` (`ingest/http_server.py` lines 40-103): resolves
`device_ip` by `or`-truthiness against the request peer, rejects falsy
`device_id` (400), absent `tds` (400) and a `ValueError` from `float(tds)`
(400); a `TypeError` from `float(tds)` escapes the `except ValueError` and
becomes a 500; otherwise it appends the reading and returns 200. -/
def receive_tds (db : DB) (now : ℚ) (device_id : Option String)
    (tds : TdsField) (voltage : Option ℚ) (timestamp : Option ℚ)
    (device_ip : Option String) (client_host : String) : DB × IngestResult :=
  let ip : String := if optStrTruthy device_ip then device_ip.getD "" else client_host
  if !optStrTruthy device_id then
    (db, .clientError 400 "Missing device_id")
  else match tds with
    | .absent => (db, .clientError 400 "Missing tds value")
    | .badStr _ => (db, .clientError 400 "Invalid tds value (must be numeric)")
    | .nonScalar => (db, .serverError "float() argument TypeError")
    | .num q =>
      (append_reading db now (device_id.getD "") q voltage timestamp (some ip),
       .ok (device_id.getD "") q)
    | .numStr q =>
      (append_reading db now (device_id.getD "") q voltage timestamp (some ip),
       .ok (device_id.getD "") q)

/-! ### Basic facts about the sort keys -/

theorem sqlDescLe_trans (a b c : Reading) (hab : sqlDescLe a b) (hbc : sqlDescLe b c) :
    sqlDescLe a c := by
  simp only [sqlDescLe, Bool.or_eq_true, Bool.and_eq_true, decide_eq_true_eq] at *
  rcases hab with h1 | ⟨h1, h1i⟩ <;> rcases hbc with h2 | ⟨h2, h2i⟩
  · exact Or.inl (lt_trans h2 h1)
  · exact Or.inl (h2 ▸ h1)
  · exact Or.inl (h1 ▸ h2)
  · exact Or.inr ⟨h1.trans h2, le_trans h1i h2i⟩

theorem sqlDescLe_total (a b : Reading) : sqlDescLe a b || sqlDescLe b a := by
  simp only [sqlDescLe, Bool.or_eq_true, Bool.and_eq_true, decide_eq_true_eq]
  rcases lt_trichotomy a.timestamp b.timestamp with h | h | h
  · exact Or.inr (Or.inl h)
  · rcases le_total a.id b.id with hi | hi
    · exact Or.inl (Or.inr ⟨h, hi⟩)
    · exact Or.inr (Or.inr ⟨h.symm, hi⟩)
  · exact Or.inl (Or.inl h)

theorem tsAscLe_trans (a b c : Reading) (hab : tsAscLe a b) (hbc : tsAscLe b c) :
    tsAscLe a c := by
  simp only [tsAscLe, decide_eq_true_eq] at *
  exact le_trans hab hbc

theorem tsAscLe_total (a b : Reading) : tsAscLe a b || tsAscLe b a := by
  simp only [tsAscLe, Bool.or_eq_true, decide_eq_true_eq]
  exact le_total a.timestamp b.timestamp

theorem lastSeenDescLe_trans (a b c : LatestRow) (hab : lastSeenDescLe a b)
    (hbc : lastSeenDescLe b c) : lastSeenDescLe a c := by
  simp only [lastSeenDescLe, decide_eq_true_eq] at *
  exact le_trans hbc hab

theorem lastSeenDescLe_total (a b : LatestRow) : lastSeenDescLe a b || lastSeenDescLe b a := by
  simp only [lastSeenDescLe, Bool.or_eq_true, decide_eq_true_eq]
  exact le_total b.last_seen a.last_seen

/-- The empty-frame branch of `last_n_readings` is redundant: the function
always equals filter, descending sort, LIMIT, ascending re-sort. -/
theorem last_n_readings_eq (db : DB) (now : ℚ) (minutes : Option ℚ)
    (limit : Nat) (device_id : Option String) :
    last_n_readings db now minutes limit device_id =
      (((db.rows.filter (matchesQuery now minutes device_id)).mergeSort
          sqlDescLe).take limit).mergeSort tsAscLe := by
  unfold last_n_readings
  by_cases h :
      (((db.rows.filter (matchesQuery now minutes device_id)).mergeSort
          sqlDescLe).take limit).isEmpty
  · simp only [h, if_true]
    rw [List.isEmpty_iff] at h
    rw [h]
    simp
  · rw [Bool.not_eq_true] at h
    simp [h]

/-- `last_n_readings` returns no rows exactly when nothing matches the filter
(for a non-zero LIMIT). -/
theorem last_n_readings_eq_nil_iff (db : DB) (now : ℚ) (minutes : Option ℚ)
    (limit : Nat) (device_id : Option String) (hl : limit ≠ 0) :
    last_n_readings db now minutes limit device_id = [] ↔
      db.rows.filter (matchesQuery now minutes device_id) = [] := by
  have hlen : (last_n_readings db now minutes limit device_id).length =
      min limit (db.rows.filter (matchesQuery now minutes device_id)).length := by
    rw [last_n_readings_eq, List.length_mergeSort, List.length_take,
      List.length_mergeSort]
  rw [← List.length_eq_zero, ← List.length_eq_zero, hlen]
  omega

/-- Unfolding of `export_csv` into the underlying range query. -/
theorem export_csv_eq (db : DB) (now : ℚ) (device_id : Option String)
    (days : Option ℚ) :
    export_csv db now device_id days =
      (if (last_n_readings db now
            (if optNumTruthy days then some (days.getD 0 * 1440) else none)
            100000 device_id).isEmpty
       then none
       else some (last_n_readings db now
            (if optNumTruthy days then some (days.getD 0 * 1440) else none)
            100000 device_id)) := rfl

/-- C4: the quality classification (a total function on ℚ) with thresholds
good=300, moderate=600 maps tds < 300 to "Good", 300 ≤ tds < 600 to
"Moderate" and 600 ≤ tds to "Poor". -/
theorem c4_quality_classification (tds : ℚ) :
    (tds < 300 → (get_water_quality_status tds ⟨300, 600⟩).1 = "Good") ∧
    (300 ≤ tds → tds < 600 → (get_water_quality_status tds ⟨300, 600⟩).1 = "Moderate") ∧
    (600 ≤ tds → (get_water_quality_status tds ⟨300, 600⟩).1 = "Poor") := by
  refine ⟨fun h => ?_, fun h1 h2 => ?_, fun h => ?_⟩
  · simp [get_water_quality_status, h]
  · simp [get_water_quality_status, not_lt.mpr h1, h2]
  · have h1 : ¬ tds < 300 := not_lt.mpr (le_trans (by norm_num) h)
    simp [get_water_quality_status, h1, not_lt.mpr h]

/-- C4 witness: the four boundary examples of P5. -/
theorem c4_quality_classification_witness :
    (get_water_quality_status (2999/10) ⟨300, 600⟩).1 = "Good" ∧
    (get_water_quality_status 300 ⟨300, 600⟩).1 = "Moderate" ∧
    (get_water_quality_status (5999/10) ⟨300, 600⟩).1 = "Moderate" ∧
    (get_water_quality_status 600 ⟨300, 600⟩).1 = "Poor" :=
  ⟨(c4_quality_classification (2999/10)).1 (by norm_num),
   (c4_quality_classification 300).2.1 (by norm_num) (by norm_num),
   (c4_quality_classification (5999/10)).2.1 (by norm_num) (by norm_num),
   (c4_quality_classification 600).2.2 (by norm_num)⟩

/-- C8: appending ("d1", 250.0) to the empty store and range-querying with no
filters returns exactly one row, with tds 250 and device_id "d1". -/
theorem c8_append_read_round_trip (now : ℚ) :
    last_n_readings (append_reading DB.empty now "d1" 250) now none 1000 none =
      [{ id := 1, device_id := "d1", device_ip := none, tds := 250,
         voltage := none, timestamp := now, created_at := now }] := by
  simp [last_n_readings, append_reading, DB.empty, matchesQuery, optNumTruthy,
    optStrTruthy]

/-- C9: a zero-minute window is falsy in Python (`if minutes:`), so
`minutes=0` behaves exactly like `minutes=None`: no time filter at all. -/
theorem c9_zero_minutes_no_filter (db : DB) (now : ℚ) (limit : Nat)
    (device_id : Option String) :
    last_n_readings db now (some 0) limit device_id =
      last_n_readings db now none limit device_id := by
  have hfun : matchesQuery now (some 0) device_id = matchesQuery now none device_id := by
    funext r
    simp [matchesQuery, optNumTruthy]
  rw [last_n_readings_eq, last_n_readings_eq, hfun]

/-- C3 counterexample: `append_reading` itself performs no validation; a call
with an empty `device_id` does change the stored set of readings. -/
theorem c3_append_no_validation_cex :
    (append_reading DB.empty 0 "" 250).rows ≠ DB.empty.rows := by
  simp [append_reading, DB.empty]

/-- C3 (amended): the rejection lives in the HTTP ingestion handler, not in
the store: `receive_tds` with a missing/empty `device_id` or a `tds` that
`float` cannot coerce returns an error and leaves the store unchanged. -/
theorem c3_http_rejects_invalid (db : DB) (now : ℚ) (device_id : Option String)
    (tds : TdsField) (voltage timestamp : Option ℚ) (device_ip : Option String)
    (client_host : String)
    (h : device_id = none ∨ device_id = some "" ∨ floatOf tds = none) :
    (receive_tds db now device_id tds voltage timestamp device_ip client_host).1 = db ∧
    (receive_tds db now device_id tds voltage timestamp device_ip
        client_host).2.accepted = false := by
  rcases h with h | h | h
  · subst h
    simp [receive_tds, optStrTruthy, IngestResult.accepted]
  · subst h
    simp [receive_tds, optStrTruthy, IngestResult.accepted]
  · rcases hd : optStrTruthy device_id with _ | _
    · cases tds <;>
        simp [receive_tds, hd, IngestResult.accepted]
    · cases tds with
      | absent => simp [receive_tds, hd, IngestResult.accepted]
      | num q => simp [floatOf] at h
      | numStr q => simp [floatOf] at h
      | badStr s => simp [receive_tds, hd, IngestResult.accepted]
      | nonScalar => simp [receive_tds, hd, IngestResult.accepted]

/-- C3 witness: a request with an empty device_id is rejected and persists
nothing. -/
theorem c3_http_rejects_invalid_witness :
    (receive_tds DB.empty 0 (some "") (.num 250) none none none "10.0.0.1").1 = DB.empty ∧
    (receive_tds DB.empty 0 (some "") (.num 250) none none none
        "10.0.0.1").2.accepted = false :=
  c3_http_rejects_invalid DB.empty 0 (some "") (.num 250) none none none
    "10.0.0.1" (Or.inr (Or.inl rfl))

/-- C7: export is `None` (no file written) exactly when no stored reading
matches the export filters, and an exported file always has at least one
row. -/
theorem c7_export_empty_noop (db : DB) (now : ℚ) (device_id : Option String)
    (days : Option ℚ) :
    (export_csv db now device_id days = none ↔
      db.rows.filter (matchesQuery now
        (if optNumTruthy days then some (days.getD 0 * 1440) else none)
        device_id) = []) ∧
    ∀ l, export_csv db now device_id days = some l → l ≠ [] := by
  have hnil := last_n_readings_eq_nil_iff db now
    (if optNumTruthy days then some (days.getD 0 * 1440) else none)
    100000 device_id (by omega)
  rw [export_csv_eq]
  rcases eq_or_ne (last_n_readings db now
      (if optNumTruthy days then some (days.getD 0 * 1440) else none)
      100000 device_id) [] with h | h
  · have hemp : (last_n_readings db now
        (if optNumTruthy days then some (days.getD 0 * 1440) else none)
        100000 device_id).isEmpty = true := by
      rw [h]
      rfl
    rw [if_pos hemp]
    exact ⟨⟨fun _ => hnil.mp h, fun _ => rfl⟩, fun l hl => nomatch hl⟩
  · have hemp : ¬((last_n_readings db now
        (if optNumTruthy days then some (days.getD 0 * 1440) else none)
        100000 device_id).isEmpty = true) := by
      rw [List.isEmpty_iff]
      exact h
    rw [if_neg hemp]
    refine ⟨⟨(fun hc => nomatch hc), fun hc => absurd (hnil.mpr hc) h⟩, fun l hl => ?_⟩
    simp only [Option.some.injEq] at hl
    subst hl
    exact h

/-- C7 witness: exporting a device with zero matching readings on a store
holding only another device's reading produces no file. -/
theorem c7_export_empty_noop_witness :
    export_csv (append_reading DB.empty 0 "d2" 100) 0 (some "nodev") none = none :=
  (c7_export_empty_noop (append_reading DB.empty 0 "d2" 100) 0 (some "nodev")
      none).1.mpr (by simp [append_reading, DB.empty, matchesQuery, optNumTruthy,
    optStrTruthy])

/-- Splitting a list by a predicate splits its length. -/
theorem filter_length_split (p : Reading → Bool) (l : List Reading) :
    (l.filter p).length + (l.filter (fun a => !p a)).length = l.length := by
  induction l with
  | nil => rfl
  | cons x t ih =>
    by_cases h : p x <;> simp [List.filter_cons, h] <;> omega

/-- C6: Prune deletes exactly the readings strictly older than
`now - older_than_days` days, keeps the others in place (a sublist of the
original rows), returns the number deleted, and a subsequent stats call
reports the correspondingly reduced total. -/
theorem c6_prune_deletes_old (db : DB) (now : ℚ) (days : ℚ) :
    (∀ r ∈ db.rows, (r ∈ (clear_old_readings db now days).1.rows ↔
        ¬(r.timestamp < now - days * 1440))) ∧
    List.Sublist (clear_old_readings db now days).1.rows db.rows ∧
    (clear_old_readings db now days).2 =
      (db.rows.filter (fun r => decide (r.timestamp < now - days * 1440))).length ∧
    (get_stats (clear_old_readings db now days).1).total_readings +
        (clear_old_readings db now days).2 =
      (get_stats db).total_readings := by
  refine ⟨fun r hr => ?_, List.filter_sublist _, rfl, ?_⟩
  · simp [clear_old_readings, List.mem_filter, hr]
  · simp only [get_stats, clear_old_readings]
    rw [Nat.add_comm]
    exact filter_length_split (fun r => decide (r.timestamp < now - days * 1440)) db.rows

/-- C6 witness: a store with one old and one new reading, pruned at 30 days:
the old one is deleted, the new one kept, count 1, stats reduced from 2 to 1. -/
theorem c6_prune_deletes_old_witness :
    (∀ r ∈ (⟨3, [⟨1, "d", none, 1, none, 0, 0⟩,
        ⟨2, "d", none, 2, none, 50000, 50000⟩]⟩ : DB).rows,
      (r ∈ (clear_old_readings ⟨3, [⟨1, "d", none, 1, none, 0, 0⟩,
          ⟨2, "d", none, 2, none, 50000, 50000⟩]⟩ 50000 30).1.rows ↔
        ¬(r.timestamp < 50000 - 30 * 1440))) ∧
    List.Sublist ((clear_old_readings ⟨3, [⟨1, "d", none, 1, none, 0, 0⟩,
        ⟨2, "d", none, 2, none, 50000, 50000⟩]⟩ 50000 30).1.rows)
      ([⟨1, "d", none, 1, none, 0, 0⟩, ⟨2, "d", none, 2, none, 50000, 50000⟩]) ∧
    (clear_old_readings ⟨3, [⟨1, "d", none, 1, none, 0, 0⟩,
        ⟨2, "d", none, 2, none, 50000, 50000⟩]⟩ 50000 30).2 =
      (([⟨1, "d", none, 1, none, 0, 0⟩,
        ⟨2, "d", none, 2, none, 50000, 50000⟩] : List Reading).filter
          (fun r => decide (r.timestamp < 50000 - 30 * 1440))).length ∧
    (get_stats (clear_old_readings ⟨3, [⟨1, "d", none, 1, none, 0, 0⟩,
        ⟨2, "d", none, 2, none, 50000, 50000⟩]⟩ 50000 30).1).total_readings +
        (clear_old_readings ⟨3, [⟨1, "d", none, 1, none, 0, 0⟩,
          ⟨2, "d", none, 2, none, 50000, 50000⟩]⟩ 50000 30).2 =
      (get_stats ⟨3, [⟨1, "d", none, 1, none, 0, 0⟩,
        ⟨2, "d", none, 2, none, 50000, 50000⟩]⟩).total_readings :=
  c6_prune_deletes_old ⟨3, [⟨1, "d", none, 1, none, 0, 0⟩,
    ⟨2, "d", none, 2, none, 50000, 50000⟩]⟩ 50000 30

/-- C10: the range query returns `min limit matches` rows, and every returned
row's timestamp is at least the timestamp of every matching row that was cut
off by the LIMIT (the cap is applied to the timestamp-descending order). -/
theorem c10_limit_keeps_newest (db : DB) (now : ℚ) (minutes : Option ℚ)
    (limit : Nat) (device_id : Option String) :
    (last_n_readings db now minutes limit device_id).length =
        min limit (db.rows.filter (matchesQuery now minutes device_id)).length ∧
    ∀ r ∈ last_n_readings db now minutes limit device_id,
      ∀ s ∈ db.rows.filter (matchesQuery now minutes device_id),
        s ∉ last_n_readings db now minutes limit device_id →
          s.timestamp ≤ r.timestamp := by
  constructor
  · rw [last_n_readings_eq, List.length_mergeSort, List.length_take,
      List.length_mergeSort]
  · intro r hr s hs hns
    rw [last_n_readings_eq, List.mem_mergeSort] at hr hns
    have hsD : s ∈ (db.rows.filter (matchesQuery now minutes device_id)).mergeSort
        sqlDescLe := by
      rwa [List.mem_mergeSort]
    have hsplit := List.take_append_drop limit
      ((db.rows.filter (matchesQuery now minutes device_id)).mergeSort sqlDescLe)
    have hsdrop : s ∈ ((db.rows.filter (matchesQuery now minutes
        device_id)).mergeSort sqlDescLe).drop limit := by
      rw [← hsplit] at hsD
      rcases List.mem_append.mp hsD with h | h
      · exact absurd h hns
      · exact h
    have hsort : (((db.rows.filter (matchesQuery now minutes
        device_id)).mergeSort sqlDescLe).take limit ++
        ((db.rows.filter (matchesQuery now minutes device_id)).mergeSort
          sqlDescLe).drop limit).Pairwise (fun a b => sqlDescLe a b = true) := by
      rw [hsplit]
      exact List.sorted_mergeSort sqlDescLe_trans sqlDescLe_total _
    have hcross := (List.pairwise_append.mp hsort).2.2 r hr s hsdrop
    simp only [sqlDescLe, Bool.or_eq_true, Bool.and_eq_true,
      decide_eq_true_eq] at hcross
    rcases hcross with h | h
    · exact h.le
    · exact h.1.ge

/-- C10 witness: three matching readings, limit 2. -/
theorem c10_limit_keeps_newest_witness :
    (last_n_readings ⟨4, [⟨1, "a", none, 1, none, 1, 0⟩,
        ⟨2, "b", none, 2, none, 2, 0⟩, ⟨3, "c", none, 3, none, 3, 0⟩]⟩
        0 none 2 none).length =
      min 2 ((⟨4, [⟨1, "a", none, 1, none, 1, 0⟩, ⟨2, "b", none, 2, none, 2, 0⟩,
        ⟨3, "c", none, 3, none, 3, 0⟩]⟩ : DB).rows.filter
          (matchesQuery 0 none none)).length ∧
    ∀ r ∈ last_n_readings ⟨4, [⟨1, "a", none, 1, none, 1, 0⟩,
        ⟨2, "b", none, 2, none, 2, 0⟩, ⟨3, "c", none, 3, none, 3, 0⟩]⟩
        0 none 2 none,
      ∀ s ∈ (⟨4, [⟨1, "a", none, 1, none, 1, 0⟩, ⟨2, "b", none, 2, none, 2, 0⟩,
        ⟨3, "c", none, 3, none, 3, 0⟩]⟩ : DB).rows.filter (matchesQuery 0 none none),
        s ∉ last_n_readings ⟨4, [⟨1, "a", none, 1, none, 1, 0⟩,
          ⟨2, "b", none, 2, none, 2, 0⟩, ⟨3, "c", none, 3, none, 3, 0⟩]⟩
          0 none 2 none →
          s.timestamp ≤ r.timestamp :=
  c10_limit_keeps_newest ⟨4, [⟨1, "a", none, 1, none, 1, 0⟩,
    ⟨2, "b", none, 2, none, 2, 0⟩, ⟨3, "c", none, 3, none, 3, 0⟩]⟩ 0 none 2 none

/-- C5 counterexample: with now = 0, a reading timestamped 10 minutes in the
future does not lie within the last 15 minutes before now, yet the 15-minute
range query returns it: `timestamp >= cutoff` has no upper bound. -/
theorem c5_future_reading_cex :
    last_n_readings ⟨2, [⟨1, "d", none, 1, none, 10, 10⟩]⟩ 0 (some 15) 1000 none =
      [⟨1, "d", none, 1, none, 10, 10⟩] ∧ ¬((10 : ℚ) ≤ 0) := by
  constructor
  · rw [last_n_readings_eq]
    norm_num [matchesQuery, optNumTruthy, optStrTruthy]
  · norm_num

/-- C5 (amended): a range query with a truthy minutes window and a limit no
smaller than the number of matches returns exactly the stored readings with
timestamp at or after `now - minutes` — a lower bound only, so readings with
future timestamps are also returned. -/
theorem c5_time_window_filter (db : DB) (now m : ℚ) (limit : Nat)
    (hm : 0 < m)
    (hlim : (db.rows.filter (matchesQuery now (some m) none)).length ≤ limit) :
    (last_n_readings db now (some m) limit none).Perm
      (db.rows.filter (fun r => decide (now - m ≤ r.timestamp))) := by
  have hq : matchesQuery now (some m) none =
      fun r => decide (now - m ≤ r.timestamp) := by
    funext r
    simp [matchesQuery, optNumTruthy, optStrTruthy, hm.ne']
  have hlen : ((db.rows.filter (matchesQuery now (some m) none)).mergeSort
      sqlDescLe).length ≤ limit := by
    rw [List.length_mergeSort]
    exact hlim
  rw [last_n_readings_eq, List.take_of_length_le hlen, ← hq]
  exact (List.mergeSort_perm _ _).trans (List.mergeSort_perm _ _)

/-- C5 witness: readings at relative minutes -60, -10, -1 and a 15-minute
window (the P4 instance). -/
theorem c5_time_window_filter_witness :
    (0 : ℚ) < 15 ∧
    ((⟨4, [⟨1, "d", none, 1, none, -60, 0⟩, ⟨2, "d", none, 2, none, -10, 0⟩,
        ⟨3, "d", none, 3, none, -1, 0⟩]⟩ : DB).rows.filter
          (matchesQuery 0 (some 15) none)).length ≤ 1000 ∧
    (last_n_readings ⟨4, [⟨1, "d", none, 1, none, -60, 0⟩,
        ⟨2, "d", none, 2, none, -10, 0⟩, ⟨3, "d", none, 3, none, -1, 0⟩]⟩
        0 (some 15) 1000 none).Perm
      ((⟨4, [⟨1, "d", none, 1, none, -60, 0⟩, ⟨2, "d", none, 2, none, -10, 0⟩,
        ⟨3, "d", none, 3, none, -1, 0⟩]⟩ : DB).rows.filter
          (fun r => decide ((0 : ℚ) - 15 ≤ r.timestamp))) :=
  ⟨by norm_num,
   by norm_num [List.filter, matchesQuery, optNumTruthy, optStrTruthy],
   c5_time_window_filter ⟨4, [⟨1, "d", none, 1, none, -60, 0⟩,
     ⟨2, "d", none, 2, none, -10, 0⟩, ⟨3, "d", none, 3, none, -1, 0⟩]⟩
     0 15 1000 (by norm_num)
     (by norm_num [List.filter, matchesQuery, optNumTruthy, optStrTruthy])⟩

/-! ### Facts about the latest-per-device aggregation -/

theorem bestOf_cons (r y : Reading) (t : List Reading) :
    bestOf r (y :: t) = bestOf (if r.timestamp < y.timestamp then y else r) t := rfl

/-- The accumulator row is one of the scanned rows. -/
theorem bestOf_mem (r : Reading) (rs : List Reading) : bestOf r rs ∈ r :: rs := by
  induction rs generalizing r with
  | nil => simp [bestOf]
  | cons y t ih =>
    rw [bestOf_cons]
    by_cases h : r.timestamp < y.timestamp
    · rw [if_pos h]
      exact List.mem_cons_of_mem r (ih y)
    · rw [if_neg h]
      rcases List.mem_cons.mp (ih r) with h1 | h1
      · rw [h1]
        exact List.mem_cons_self r _
      · exact List.mem_cons_of_mem r (List.mem_cons_of_mem y h1)

/-- The accumulator row attains the maximal timestamp of the scan. -/
theorem bestOf_ts_max (r : Reading) (rs : List Reading) :
    ∀ x ∈ r :: rs, x.timestamp ≤ (bestOf r rs).timestamp := by
  induction rs generalizing r with
  | nil =>
    intro x hx
    rcases List.mem_cons.mp hx with h | h
    · rw [h]
      exact le_refl _
    · cases h
  | cons y t ih =>
    intro x hx
    rw [bestOf_cons]
    by_cases h : r.timestamp < y.timestamp
    · rw [if_pos h]
      rcases List.mem_cons.mp hx with h1 | h1
      · rw [h1]
        exact le_trans h.le (ih y y (List.mem_cons_self y t))
      · exact ih y x h1
    · rw [if_neg h]
      rcases List.mem_cons.mp hx with h1 | h1
      · rw [h1]
        exact ih r r (List.mem_cons_self r t)
      · rcases List.mem_cons.mp h1 with h2 | h2
        · rw [h2]
          exact le_trans (not_lt.mp h) (ih r r (List.mem_cons_self r t))
        · exact ih r x (List.mem_cons_of_mem r h2)

/-- The `MAX(timestamp)` aggregate equals the accumulator row's timestamp. -/
theorem maxTsOf_eq_bestOf_ts (r : Reading) (rs : List Reading) :
    maxTsOf r rs = (bestOf r rs).timestamp := by
  induction rs generalizing r with
  | nil => rfl
  | cons y t ih =>
    rw [bestOf_cons]
    by_cases h : r.timestamp < y.timestamp
    · rw [if_pos h]
      have hstep : maxTsOf r (y :: t) = maxTsOf y t := by
        simp only [maxTsOf, List.foldl_cons]
        rw [max_eq_right h.le]
      rw [hstep, ih]
    · rw [if_neg h]
      have hstep : maxTsOf r (y :: t) = maxTsOf r t := by
        simp only [maxTsOf, List.foldl_cons]
        rw [max_eq_left (not_lt.mp h)]
      rw [hstep, ih]

/-- A successful group aggregation row takes all its values from one scanned
reading whose timestamp is maximal in the group. -/
theorem groupAgg_spec {g : List Reading} {row : LatestRow}
    (h : groupAgg g = some row) :
    ∃ r, r ∈ g ∧ r.device_id = row.device_id ∧ r.device_ip = row.device_ip ∧
      r.tds = row.tds ∧ r.voltage = row.voltage ∧ r.timestamp = row.timestamp ∧
      row.last_seen = r.timestamp ∧ ∀ s ∈ g, s.timestamp ≤ r.timestamp := by
  cases g with
  | nil => cases h
  | cons r rs =>
    simp only [groupAgg, Option.some.injEq] at h
    subst h
    exact ⟨bestOf r rs, bestOf_mem r rs, rfl, rfl, rfl, rfl, rfl,
      maxTsOf_eq_bestOf_ts r rs, bestOf_ts_max r rs⟩

/-- A device that has at least one reading aggregates to a row labelled with
that device. -/
theorem groupAgg_of_mem {rows : List Reading} {d : String}
    (hex : ∃ r ∈ rows, r.device_id = d) :
    ∃ row, groupAgg (rows.filter (fun r => r.device_id == d)) = some row ∧
      row.device_id = d := by
  obtain ⟨r, hr, hrd⟩ := hex
  have hmem : r ∈ rows.filter (fun r => r.device_id == d) :=
    List.mem_filter.mpr ⟨hr, by simp [hrd]⟩
  cases hg : rows.filter (fun r => r.device_id == d) with
  | nil =>
    rw [hg] at hmem
    cases hmem
  | cons a t =>
    refine ⟨_, rfl, ?_⟩
    have hb : bestOf a t ∈ rows.filter (fun r => r.device_id == d) := by
      rw [hg]
      exact bestOf_mem a t
    exact eq_of_beq (List.mem_filter.mp hb).2

/-- Mapping the aggregated rows back to their device labels recovers the
grouped device list. -/
theorem filterMap_groupAgg_devices (rows : List Reading) (ds : List String)
    (hds : ∀ d ∈ ds, ∃ r ∈ rows, r.device_id = d) :
    ((ds.filterMap (fun d => groupAgg (rows.filter
        (fun r => r.device_id == d)))).map (fun w => w.device_id)) = ds := by
  induction ds with
  | nil => rfl
  | cons d t ih =>
    obtain ⟨row, hrow, hd⟩ := groupAgg_of_mem (hds d (List.mem_cons_self d t))
    simp only [List.filterMap_cons, hrow, List.map_cons, hd]
    rw [ih (fun x hx => hds x (List.mem_cons_of_mem d hx))]

/-- C2 (amended): on every non-empty store, latest-per-device returns exactly
one row per distinct device_id; each row carries the values of a reading of
that device whose timestamp is maximal for the device (on timestamp ties the
accumulator keeps the first-scanned, i.e. lowest-id, reading), with
`last_seen` equal to that maximal timestamp; and the rows are ordered
descending by `last_seen`. -/
theorem c2_latest_per_device (db : DB) (_hne : db.rows ≠ []) :
    (((get_latest_by_device db).map (fun w => w.device_id)).Perm
        ((db.rows.map (fun r => r.device_id)).dedup)) ∧
    ((get_latest_by_device db).map (fun w => w.device_id)).Nodup ∧
    (∀ w ∈ get_latest_by_device db, ∃ r, r ∈ db.rows ∧
        r.device_id = w.device_id ∧ r.device_ip = w.device_ip ∧
        r.tds = w.tds ∧ r.voltage = w.voltage ∧ r.timestamp = w.timestamp ∧
        w.last_seen = r.timestamp ∧
        ∀ s ∈ db.rows, s.device_id = w.device_id →
          s.timestamp ≤ r.timestamp) ∧
    (get_latest_by_device db).Pairwise (fun a b => b.last_seen ≤ a.last_seen) := by
  have hdev : ∀ d ∈ (db.rows.map (fun r => r.device_id)).dedup,
      ∃ r ∈ db.rows, r.device_id = d := by
    intro d hd
    rw [List.mem_dedup] at hd
    obtain ⟨r, hr, hrd⟩ := List.mem_map.mp hd
    exact ⟨r, hr, hrd⟩
  have hmapeq := filterMap_groupAgg_devices db.rows
    ((db.rows.map (fun r => r.device_id)).dedup) hdev
  have hperm : ((get_latest_by_device db).map (fun w => w.device_id)).Perm
      ((db.rows.map (fun r => r.device_id)).dedup) := by
    have hp := (List.mergeSort_perm
      (((db.rows.map (fun r => r.device_id)).dedup).filterMap
        (fun d => groupAgg (db.rows.filter (fun r => r.device_id == d))))
      lastSeenDescLe).map (fun w => w.device_id)
    rw [hmapeq] at hp
    exact hp
  refine ⟨hperm, hperm.nodup_iff.mpr (List.nodup_dedup _), ?_, ?_⟩
  · intro w hw
    have hw' : w ∈ ((db.rows.map (fun r => r.device_id)).dedup).filterMap
        (fun d => groupAgg (db.rows.filter (fun r => r.device_id == d))) := by
      have := hw
      rw [get_latest_by_device, List.mem_mergeSort] at this
      exact this
    obtain ⟨d, _, hag⟩ := List.mem_filterMap.mp hw'
    obtain ⟨r, hrg, hdid, hip, htds, hvol, hts, hls, hmax⟩ := groupAgg_spec hag
    have hrrows : r ∈ db.rows := (List.mem_filter.mp hrg).1
    have hrd : r.device_id = d := eq_of_beq (List.mem_filter.mp hrg).2
    refine ⟨r, hrrows, hdid, hip, htds, hvol, hts, hls, ?_⟩
    intro s hs hsw
    have hsg : s ∈ db.rows.filter (fun r => r.device_id == d) :=
      List.mem_filter.mpr ⟨hs, by rw [hsw, ← hdid, hrd]; exact beq_self_eq_true d⟩
    exact hmax s hsg
  · rw [get_latest_by_device]
    exact List.Pairwise.imp
      (fun h => by simpa [lastSeenDescLe] using h)
      (List.sorted_mergeSort lastSeenDescLe_trans lastSeenDescLe_total _)

/-- C2 counterexample: two readings of one device tie on the maximal
timestamp (ids 1 and 2, tds 10 and 20); the returned row carries the values
of the first-inserted reading (id 1, tds 10), not the highest id (tds 20). -/
theorem c2_tie_lowest_id_cex :
    (get_latest_by_device ⟨3, [⟨1, "d1", none, 10, none, 5, 6⟩,
        ⟨2, "d1", none, 20, none, 5, 7⟩]⟩).map (fun w => w.tds) = [10] ∧
    (10 : ℚ) ≠ 20 := by
  constructor
  · have hded : (([⟨1, "d1", none, 10, none, 5, 6⟩,
        ⟨2, "d1", none, 20, none, 5, 7⟩] : List Reading).map
          (fun r => r.device_id)).dedup = ["d1"] := by
      norm_num [List.dedup_cons_of_mem]
    rw [get_latest_by_device]
    simp only [hded]
    norm_num [groupAgg, bestOf, maxTsOf, List.filter, List.filterMap]
  · norm_num

/-- C2 witness: a store with two devices, d1 seen at times 1 and 2, d2 at
time 3 (the P3 instance). -/
theorem c2_latest_per_device_witness :
    ((⟨4, [⟨1, "d1", none, 100, none, 1, 0⟩, ⟨2, "d1", none, 200, none, 2, 0⟩,
        ⟨3, "d2", none, 300, none, 3, 0⟩]⟩ : DB).rows ≠ []) ∧
    (((get_latest_by_device ⟨4, [⟨1, "d1", none, 100, none, 1, 0⟩,
        ⟨2, "d1", none, 200, none, 2, 0⟩,
        ⟨3, "d2", none, 300, none, 3, 0⟩]⟩).map (fun w => w.device_id)).Perm
      (((⟨4, [⟨1, "d1", none, 100, none, 1, 0⟩, ⟨2, "d1", none, 200, none, 2, 0⟩,
        ⟨3, "d2", none, 300, none, 3, 0⟩]⟩ : DB).rows.map
          (fun r => r.device_id)).dedup)) ∧
    (∀ w ∈ get_latest_by_device ⟨4, [⟨1, "d1", none, 100, none, 1, 0⟩,
        ⟨2, "d1", none, 200, none, 2, 0⟩, ⟨3, "d2", none, 300, none, 3, 0⟩]⟩,
      ∃ r, r ∈ (⟨4, [⟨1, "d1", none, 100, none, 1, 0⟩,
          ⟨2, "d1", none, 200, none, 2, 0⟩,
          ⟨3, "d2", none, 300, none, 3, 0⟩]⟩ : DB).rows ∧
        r.device_id = w.device_id ∧ r.device_ip = w.device_ip ∧
        r.tds = w.tds ∧ r.voltage = w.voltage ∧ r.timestamp = w.timestamp ∧
        w.last_seen = r.timestamp ∧
        ∀ s ∈ (⟨4, [⟨1, "d1", none, 100, none, 1, 0⟩,
            ⟨2, "d1", none, 200, none, 2, 0⟩,
            ⟨3, "d2", none, 300, none, 3, 0⟩]⟩ : DB).rows,
          s.device_id = w.device_id → s.timestamp ≤ r.timestamp) :=
  ⟨by simp,
   (c2_latest_per_device ⟨4, [⟨1, "d1", none, 100, none, 1, 0⟩,
     ⟨2, "d1", none, 200, none, 2, 0⟩, ⟨3, "d2", none, 300, none, 3, 0⟩]⟩
     (by simp)).1,
   (c2_latest_per_device ⟨4, [⟨1, "d1", none, 100, none, 1, 0⟩,
     ⟨2, "d1", none, 200, none, 2, 0⟩, ⟨3, "d2", none, 300, none, 3, 0⟩]⟩
     (by simp)).2.2.1⟩

/-- The executable model `last_n_readings` (the stable outcome) is one
admissible result of the unstable re-sort contract. -/
theorem last_n_readings_is_outcome (db : DB) (now : ℚ) (minutes : Option ℚ)
    (limit : Nat) (device_id : Option String) :
    lastNReadingsOutcome db now minutes limit device_id
      (last_n_readings db now minutes limit device_id) := by
  rw [last_n_readings_eq]
  unfold lastNReadingsOutcome
  by_cases hemp : (((db.rows.filter (matchesQuery now minutes
      device_id)).mergeSort sqlDescLe).take limit).isEmpty
  · rw [if_pos hemp]
    rw [List.isEmpty_iff] at hemp
    rw [hemp]
    simp
  · rw [if_neg hemp]
    refine ⟨(List.mergeSort_perm _ _).symm, ?_⟩
    exact List.Pairwise.imp (fun h => by simpa [tsAscLe] using h)
      (List.sorted_mergeSort tsAscLe_trans tsAscLe_total _)

/-- On a store with two readings tied at timestamp 5 (ids 1 and 2), returning
them in descending id order is an admissible result of the unfiltered range
query: the unstable re-sort only promises a timestamp-ascending permutation. -/
theorem tie_pair_descending_outcome :
    lastNReadingsOutcome ⟨3, [⟨1, "a", none, 1, none, 5, 0⟩,
        ⟨2, "b", none, 2, none, 5, 0⟩]⟩ 0 none 1000 none
      [⟨2, "b", none, 2, none, 5, 0⟩, ⟨1, "a", none, 1, none, 5, 0⟩] := by
  unfold lastNReadingsOutcome
  have hfil : ([⟨1, "a", none, 1, none, 5, 0⟩,
      ⟨2, "b", none, 2, none, 5, 0⟩] : List Reading).filter
        (matchesQuery 0 none none) =
      [⟨1, "a", none, 1, none, 5, 0⟩, ⟨2, "b", none, 2, none, 5, 0⟩] := by
    simp [matchesQuery, optNumTruthy, optStrTruthy]
  have hms : ([⟨1, "a", none, 1, none, 5, 0⟩,
      ⟨2, "b", none, 2, none, 5, 0⟩] : List Reading).mergeSort sqlDescLe =
      [⟨1, "a", none, 1, none, 5, 0⟩, ⟨2, "b", none, 2, none, 5, 0⟩] :=
    List.mergeSort_of_sorted (by norm_num [List.pairwise_cons, sqlDescLe])
  have hlim : ((((⟨3, [⟨1, "a", none, 1, none, 5, 0⟩,
      ⟨2, "b", none, 2, none, 5, 0⟩]⟩ : DB).rows.filter
        (matchesQuery 0 none none)).mergeSort sqlDescLe).take 1000) =
      [⟨1, "a", none, 1, none, 5, 0⟩, ⟨2, "b", none, 2, none, 5, 0⟩] := by
    rw [show (⟨3, [⟨1, "a", none, 1, none, 5, 0⟩,
      ⟨2, "b", none, 2, none, 5, 0⟩]⟩ : DB).rows =
        [⟨1, "a", none, 1, none, 5, 0⟩, ⟨2, "b", none, 2, none, 5, 0⟩] from rfl,
      hfil, hms]
    exact List.take_of_length_le (by simp)
  rw [hlim, if_neg (by simp)]
  exact ⟨List.Perm.swap _ _ _, by norm_num [List.pairwise_cons]⟩

/-- C1 counterexample: the descending-id pair is an admissible result of the
range query on a store with a timestamp tie, and it is not ordered by
ascending id among equal timestamps — the program does not guarantee the
claimed tie order (the pandas re-sort is unstable). -/
theorem c1_unstable_tie_cex :
    lastNReadingsOutcome ⟨3, [⟨1, "a", none, 1, none, 5, 0⟩,
        ⟨2, "b", none, 2, none, 5, 0⟩]⟩ 0 none 1000 none
      [⟨2, "b", none, 2, none, 5, 0⟩, ⟨1, "a", none, 1, none, 5, 0⟩] ∧
    ¬(([⟨2, "b", none, 2, none, 5, 0⟩,
        ⟨1, "a", none, 1, none, 5, 0⟩] : List Reading).Pairwise
      (fun a b => a.timestamp < b.timestamp ∨
        (a.timestamp = b.timestamp ∧ a.id < b.id))) :=
  ⟨tie_pair_descending_outcome, by norm_num [List.pairwise_cons]⟩

/-- C1 (amended): every admissible result of the range query is ordered
ascending by timestamp and holds exactly the LIMIT-capped newest matching
readings (as a multiset); the relative order of rows with equal timestamps is
not guaranteed, because the final pandas re-sort is unstable. -/
theorem c1_range_query_ts_sorted (db : DB) (now : ℚ) (minutes : Option ℚ)
    (limit : Nat) (device_id : Option String) (out : List Reading)
    (h : lastNReadingsOutcome db now minutes limit device_id out) :
    out.Pairwise (fun a b => a.timestamp ≤ b.timestamp) ∧
    out.Perm (((db.rows.filter (matchesQuery now minutes device_id)).mergeSort
        sqlDescLe).take limit) := by
  unfold lastNReadingsOutcome at h
  by_cases hemp : (((db.rows.filter (matchesQuery now minutes
      device_id)).mergeSort sqlDescLe).take limit).isEmpty
  · rw [if_pos hemp] at h
    subst h
    rw [List.isEmpty_iff] at hemp
    rw [hemp]
    exact ⟨List.Pairwise.nil, List.Perm.refl _⟩
  · rw [if_neg hemp] at h
    exact ⟨h.2, h.1.symm⟩

/-- C1 witness: the admissible descending-id outcome on the timestamp-tied
store, with its guaranteed timestamp-sortedness and row multiset. -/
theorem c1_range_query_ts_sorted_witness :
    lastNReadingsOutcome ⟨3, [⟨1, "a", none, 1, none, 5, 0⟩,
        ⟨2, "b", none, 2, none, 5, 0⟩]⟩ 0 none 1000 none
      [⟨2, "b", none, 2, none, 5, 0⟩, ⟨1, "a", none, 1, none, 5, 0⟩] ∧
    (([⟨2, "b", none, 2, none, 5, 0⟩,
        ⟨1, "a", none, 1, none, 5, 0⟩] : List Reading).Pairwise
      (fun a b => a.timestamp ≤ b.timestamp) ∧
    ([⟨2, "b", none, 2, none, 5, 0⟩,
        ⟨1, "a", none, 1, none, 5, 0⟩] : List Reading).Perm
      ((((⟨3, [⟨1, "a", none, 1, none, 5, 0⟩,
          ⟨2, "b", none, 2, none, 5, 0⟩]⟩ : DB).rows.filter
            (matchesQuery 0 none none)).mergeSort sqlDescLe).take 1000)) :=
  ⟨tie_pair_descending_outcome,
   c1_range_query_ts_sorted ⟨3, [⟨1, "a", none, 1, none, 5, 0⟩,
     ⟨2, "b", none, 2, none, 5, 0⟩]⟩ 0 none 1000 none
     [⟨2, "b", none, 2, none, 5, 0⟩, ⟨1, "a", none, 1, none, 5, 0⟩]
     tie_pair_descending_outcome⟩
